import Mathlib

/-!
Shallow embedding of `src/app.py`: a Flask service that loads quiz questions
from a CSV file once at startup and serves one random five-option question
per unit over HTTP.

Randomness is made explicit: `random.choice(seq)` is modelled by an index
parameter `pick` reduced modulo the length of `seq`, and `random.shuffle`
is modelled by the Fisher-Yates algorithm it implements, consuming a stream
`rs : List Nat` of random draws (`j = rs_k % (i+1)` for position `i`).

A CSV row is modelled as a record of the seven column values read by the
program; `csv.DictReader` rows that lack a cell behave like the empty
string at every access site of the program, so missing cells are modelled
as `""`.  The source file is modelled as a presence flag plus, for each
attempted encoding, the decode outcome (decoded header row and data rows,
or a `UnicodeDecodeError`).
-/

/-- Python `str.strip()`: drop leading and trailing whitespace. -/
def pyStrip (s : String) : String :=
  ⟨((s.data.dropWhile Char.isWhitespace).reverse.dropWhile Char.isWhitespace).reverse⟩

/-- Python truthiness of a string: `bool(s)` is `True` iff `s` is non-empty. -/
def pyTruthyStr (s : String) : Bool := s ≠ ""

/-- Python `str(n)` for a non-negative integer: its decimal representation. -/
def pyStr (n : Nat) : String := Nat.repr n

/-- One CSV data row, as the dict produced by `csv.DictReader`, restricted to
the seven columns the program reads. -/
structure Row where
  unitNo : String
  question : String
  correctAnswer : String
  wrongAnswer1 : String
  wrongAnswer2 : String
  wrongAnswer3 : String
  wrongAnswer4 : String
deriving DecidableEq, Repr, Inhabited

/-- `required_headers` from app.py line 21. -/
def required_headers : List String :=
  ["Unit No", "Question", "Correct Answer", "Wrong Answer 1", "Wrong Answer 2",
   "Wrong Answer 3", "Wrong Answer 4"]

/-- The values of the `essential_question_fields` of a row (app.py line 29). -/
def essentialFieldValues (r : Row) : List String :=
  [r.question, r.correctAnswer, r.wrongAnswer1, r.wrongAnswer2, r.wrongAnswer3,
   r.wrongAnswer4]

/-- `raw_wrong_answers` (app.py lines 44-49): the four wrong-answer cells,
stripped. -/
def raw_wrong_answers (r : Row) : List String :=
  [pyStrip r.wrongAnswer1, pyStrip r.wrongAnswer2, pyStrip r.wrongAnswer3,
   pyStrip r.wrongAnswer4]

/-- `len(distinct_valid_wrong_answers)` (app.py lines 52-54): the number of
distinct stripped wrong answers that are non-empty and differ from the
stripped correct answer. -/
def distinct_valid_wrong_answers_len (r : Row) : Nat :=
  (((raw_wrong_answers r).filter
      (fun wa => pyTruthyStr wa && wa ≠ pyStrip r.correctAnswer)).dedup).length

/-- Per-row validation of the loader (app.py lines 31-58): a row is kept iff
its `Unit No` is truthy with truthy strip, every essential field is truthy
with truthy strip, and there are at least 4 distinct valid wrong answers. -/
def rowValid (r : Row) : Bool :=
  (pyTruthyStr r.unitNo && pyTruthyStr (pyStrip r.unitNo)) &&
  ((essentialFieldValues r).all fun s => pyTruthyStr s && pyTruthyStr (pyStrip s)) &&
  (4 ≤ distinct_valid_wrong_answers_len r)

/-- The text encodings the loader attempts, in order (app.py line 14). -/
inductive PyEncoding
  | utf8sig
  | utf8
  | latin1
  | cp1252
deriving DecidableEq, Repr

/-- `encodings_to_try` (app.py line 14). -/
def encodings_to_try : List PyEncoding :=
  [PyEncoding.utf8sig, PyEncoding.utf8, PyEncoding.latin1, PyEncoding.cp1252]

/-- What `csv.DictReader` yields for the file under one encoding:
`fieldnames` (none for an empty file) and the data rows. -/
structure CSVContent where
  fieldnames : Option (List String)
  rows : List Row
deriving DecidableEq, Repr

/-- Outcome of reading the file under one encoding: decoded content, or a
`UnicodeDecodeError` (also covering the generic-exception branch, which the
loop treats the same way: log and try the next encoding). -/
inductive ReadResult
  | content (c : CSVContent)
  | decodeFailure
deriving DecidableEq, Repr

/-- The CSV source file: whether it exists, and what each encoding yields.
`FileNotFoundError` does not depend on the encoding, so presence is a single
flag. -/
structure Source where
  present : Bool
  decode : PyEncoding → ReadResult

/-- The header check of app.py line 23: `fieldnames` must be truthy (not
`None`, not empty) and contain every required header. -/
def headersOk : Option (List String) → Bool
  | none => false
  | some fns => (!fns.isEmpty) && required_headers.all fns.contains

/-- The module-level state the loader produces: the
`CSV_LOADED_SUCCESSFULLY` flag and `all_questions_data`. -/
structure LoadResult where
  CSV_LOADED_SUCCESSFULLY : Bool
  all_questions_data : List Row
deriving DecidableEq, Repr, Inhabited

/-- The encoding loop of app.py lines 16-79: for each encoding in order,
a missing file breaks out of the loop; a decode failure moves on to the next
encoding; decoded content with a bad header row moves on to the next
encoding; decoded content with the required headers is accepted — its rows
are filtered by `rowValid`, the success flag is set and the loop breaks. -/
def loadLoop (src : Source) : List PyEncoding → LoadResult
  | [] => ⟨false, []⟩
  | enc :: rest =>
    if src.present = false then ⟨false, []⟩
    else
      match src.decode enc with
      | ReadResult.decodeFailure => loadLoop src rest
      | ReadResult.content c =>
        if headersOk c.fieldnames then ⟨true, c.rows.filter rowValid⟩
        else loadLoop src rest

/-- The whole startup loader (app.py lines 12-84). -/
def load (src : Source) : LoadResult := loadLoop src encodings_to_try

/-- An encoding the loop would accept: the file is present, it decodes, and
the decoded header row passes the header check. -/
def goodEncoding (src : Source) (e : PyEncoding) : Bool :=
  src.present &&
    match src.decode e with
    | ReadResult.content c => headersOk c.fieldnames
    | ReadResult.decodeFailure => false

/-- The three `status` values of the health endpoint. -/
inductive HealthStatus
  | ok
  | ok_empty_data
  | error
deriving DecidableEq, Repr

/-- `health_check` (app.py lines 91-98), as (status, HTTP code). -/
def health_check (st : LoadResult) : HealthStatus × Nat :=
  if st.CSV_LOADED_SUCCESSFULLY = true ∧ st.all_questions_data ≠ [] then
    (HealthStatus.ok, 200)
  else if st.CSV_LOADED_SUCCESSFULLY = true ∧ st.all_questions_data = [] then
    (HealthStatus.ok_empty_data, 200)
  else
    (HealthStatus.error, 503)

/-- Swap the elements at positions `i` and `j`, as Python's
`x[i], x[j] = x[j], x[i]`. Out-of-range positions leave the list unchanged
(unreachable in the program). -/
def listSwap {α : Type} (l : List α) (i j : Nat) : List α :=
  match l.get? i, l.get? j with
  | some a, some b => (l.set i b).set j a
  | _, _ => l

/-- The Fisher-Yates loop of `random.shuffle`: for `i` from `len-1` down to
`1`, draw `j` uniformly in `[0, i]` (modelled as `r % (i+1)` for the next
random draw `r`) and swap positions `i` and `j`. -/
def shuffleSteps {α : Type} : List Nat → Nat → List α → List α
  | _, 0, l => l
  | [], _ + 1, l => l
  | r :: rs, i + 1, l => shuffleSteps rs i (listSwap l (i + 1) (r % (i + 2)))

/-- `random.shuffle`, parametrised by the stream of random draws. -/
def pyShuffle {α : Type} (rs : List Nat) (l : List α) : List α :=
  shuffleSteps rs (l.length - 1) l

/-- The JSON body of a successful question response (app.py lines 133-139). -/
structure FormattedQuestion where
  question_id : String
  question : String
  options : List String
  correct_answer_debug : String
deriving DecidableEq, Repr, Inhabited

/-- A response of the question endpoint: a JSON body, or an `abort(code)`. -/
inductive QResponse
  | ok (fq : FormattedQuestion)
  | httpError (code : Nat)
deriving DecidableEq, Repr

/-- Formatting of the selected row (app.py lines 117-139): read the raw
field values, build `[correct] + wrongs`, shuffle it, and derive
`question_id` from `Unit No` and the first 20 characters of the question
with spaces replaced by underscores. -/
def formatQuestion (sel : Row) (rs : List Nat) : FormattedQuestion :=
  let question_text := sel.question
  let correct_answer := sel.correctAnswer
  let wrong_answers :=
    [sel.wrongAnswer1, sel.wrongAnswer2, sel.wrongAnswer3, sel.wrongAnswer4]
  let all_options := pyShuffle rs (correct_answer :: wrong_answers)
  { question_id :=
      "U" ++ sel.unitNo ++ "_" ++
        ⟨(question_text.data.take 20).map fun ch => if ch = ' ' then '_' else ch⟩,
    question := question_text,
    options := all_options,
    correct_answer_debug := correct_answer }

/-- `get_single_question_for_unit` (app.py lines 101-141): 503 when the CSV
never loaded, 503 when no valid rows exist, 404 when no row's raw `Unit No`
equals `str(unit_id)`, otherwise a random matching row is chosen and
formatted. -/
def get_single_question_for_unit (st : LoadResult) (unit_id : Nat) (pick : Nat)
    (rs : List Nat) : QResponse :=
  if st.CSV_LOADED_SUCCESSFULLY = false then QResponse.httpError 503
  else if st.all_questions_data = [] then QResponse.httpError 503
  else
    let unit_specific_questions_raw :=
      st.all_questions_data.filter (fun q => q.unitNo == pyStr unit_id)
    if h : unit_specific_questions_raw = [] then QResponse.httpError 404
    else
      let sel := unit_specific_questions_raw.get
        ⟨pick % unit_specific_questions_raw.length,
         Nat.mod_lt _ (List.length_pos.mpr h)⟩
      QResponse.ok (formatQuestion sel rs)

/-- `get_single_question_for_unit` with the module state threaded explicitly:
each exit point returns the state the handler leaves behind.  The handler
rebinds no module global and `random.shuffle` mutates only `all_options`, a
fresh list built by `[correct_answer] + wrong_answers` (app.py line 130), so
every exit returns the incoming state. -/
def get_single_question_for_unit_st (st : LoadResult) (unit_id : Nat) (pick : Nat)
    (rs : List Nat) : QResponse × LoadResult :=
  if st.CSV_LOADED_SUCCESSFULLY = false then (QResponse.httpError 503, st)
  else if st.all_questions_data = [] then (QResponse.httpError 503, st)
  else
    let unit_specific_questions_raw :=
      st.all_questions_data.filter (fun q => q.unitNo == pyStr unit_id)
    if h : unit_specific_questions_raw = [] then (QResponse.httpError 404, st)
    else
      let sel := unit_specific_questions_raw.get
        ⟨pick % unit_specific_questions_raw.length,
         Nat.mod_lt _ (List.length_pos.mpr h)⟩
      (QResponse.ok (formatQuestion sel rs), st)

/-- A concrete source: header row plus the single row of the spec scenario. -/
def row1 : Row := ⟨"1", "Q1", "A", "B", "C", "D", "E"⟩

/-- Source whose every encoding decodes to the required headers and `row1`. -/
def srcOneRow : Source :=
  ⟨true, fun _ => ReadResult.content ⟨some required_headers, [row1]⟩⟩

/-- A row whose `Unit No` carries a leading space but is otherwise valid. -/
def rowPaddedUnit : Row := ⟨" 1", "Q1", "A", "B", "C", "D", "E"⟩

/-- Source holding only `rowPaddedUnit`. -/
def srcPaddedUnit : Source :=
  ⟨true, fun _ => ReadResult.content ⟨some required_headers, [rowPaddedUnit]⟩⟩

/-- A valid row whose answer cells carry surrounding whitespace. -/
def rowPaddedAnswers : Row := ⟨"2", "Q2", " A ", " B ", " C ", " D ", " E "⟩

/-- Source holding only `rowPaddedAnswers`. -/
def srcPaddedAnswers : Source :=
  ⟨true, fun _ => ReadResult.content ⟨some required_headers, [rowPaddedAnswers]⟩⟩

/-- A source file that does not exist. -/
def srcAbsent : Source := ⟨false, fun _ => ReadResult.decodeFailure⟩

/-- A duplicate of `srcOneRow` built separately, for the idempotence witness. -/
def srcOneRowAgain : Source :=
  ⟨true, fun _ => ReadResult.content ⟨some required_headers, [row1]⟩⟩

/-- The body of the successful scenario response at `pick = 0`,
`rs = [0, 0, 0, 0]`. -/
def sampleFq : FormattedQuestion :=
  match get_single_question_for_unit (load srcOneRow) 1 0 [0, 0, 0, 0] with
  | QResponse.ok fq => fq
  | QResponse.httpError _ => default

/-- The body of the successful response for unit 2 of `srcPaddedAnswers` at
`pick = 0`, `rs = [0, 0, 0, 0]`. -/
def sampleFqPadded : FormattedQuestion :=
  match get_single_question_for_unit (load srcPaddedAnswers) 2 0 [0, 0, 0, 0] with
  | QResponse.ok fq => fq
  | QResponse.httpError _ => default

lemma set_of_get? : ∀ (l : List α) (i : Nat) (a : α), l.get? i = some a → l.set i a = l
  | [], _, _, h => by simp at h
  | x :: xs, 0, a, h => by
    simp only [List.get?] at h
    injection h with h
    simp [h]
  | x :: xs, i + 1, a, h => by
    simp only [List.get?] at h
    simp [set_of_get? xs i a h]

lemma cons_set_perm : ∀ (xs : List α) (k : Nat) (a b : α), xs.get? k = some b →
    List.Perm (b :: xs.set k a) (a :: xs)
  | [], k, _, _, h => by simp at h
  | y :: ys, 0, a, b, h => by
    simp only [List.get?] at h
    injection h with h
    subst h
    simpa using List.Perm.swap a y ys
  | y :: ys, k + 1, a, b, h => by
    simp only [List.get?] at h
    have ih := cons_set_perm ys k a b h
    have s1 : List.Perm (b :: y :: ys.set k a) (y :: b :: ys.set k a) :=
      List.Perm.swap y b _
    have s2 : List.Perm (y :: b :: ys.set k a) (y :: a :: ys) := ih.cons y
    have s3 : List.Perm (y :: a :: ys) (a :: y :: ys) := List.Perm.swap a y ys
    have : List.Perm (b :: y :: ys.set k a) (a :: y :: ys) := s1.trans (s2.trans s3)
    simpa using this

lemma swap_lt_perm : ∀ (l : List α) (i j : Nat), i < j → ∀ (a b : α),
    l.get? i = some a → l.get? j = some b → List.Perm ((l.set i b).set j a) l
  | [], _, _, _, _, _, h1, _ => by simp at h1
  | x :: xs, 0, j + 1, _, a, b, h1, h2 => by
    simp only [List.get?] at h1 h2
    injection h1 with h1
    subst h1
    have := cons_set_perm xs j x b h2
    simpa using this
  | x :: xs, i + 1, j + 1, hij, a, b, h1, h2 => by
    simp only [List.get?] at h1 h2
    have ih := swap_lt_perm xs i j (Nat.lt_of_succ_lt_succ hij) a b h1 h2
    simpa using ih.cons x

lemma listSwap_perm (l : List α) (i j : Nat) : List.Perm (listSwap l i j) l := by
  unfold listSwap
  split
  · next a b h1 h2 =>
    rcases Nat.lt_trichotomy i j with h | h | h
    · exact swap_lt_perm l i j h a b h1 h2
    · subst h
      rw [h1] at h2
      injection h2 with h2
      subst h2
      rw [List.set_set, set_of_get? l i a h1]
    · rw [List.set_comm _ _ _ (Nat.ne_of_gt h)]
      exact swap_lt_perm l j i h b a h2 h1
  · exact List.Perm.refl l

lemma shuffleSteps_perm (rs : List Nat) (i : Nat) (l : List α) :
    List.Perm (shuffleSteps rs i l) l := by
  induction i generalizing rs l with
  | zero => simp [shuffleSteps]
  | succ i ih =>
    cases rs with
    | nil => simp [shuffleSteps]
    | cons r rest =>
      exact (ih rest _).trans (listSwap_perm l (i + 1) (r % (i + 2)))

lemma pyShuffle_perm (rs : List Nat) (l : List α) : List.Perm (pyShuffle rs l) l :=
  shuffleSteps_perm rs (l.length - 1) l

lemma digitChar_isDigit {m : Nat} (h : m < 10) : (Nat.digitChar m).isDigit = true := by
  interval_cases m <;> decide

lemma toDigitsCore_digits :
    ∀ (fuel n : Nat) (acc : List Char), (∀ c ∈ acc, c.isDigit = true) →
      ∀ c ∈ Nat.toDigitsCore 10 fuel n acc, c.isDigit = true := by
  intro fuel
  induction fuel with
  | zero => intro n acc hacc; simpa [Nat.toDigitsCore] using hacc
  | succ fuel ih =>
    intro n acc hacc
    simp only [Nat.toDigitsCore]
    have hd : (Nat.digitChar (n % 10)).isDigit = true :=
      digitChar_isDigit (Nat.mod_lt n (by omega))
    split
    · intro c hc
      rcases List.mem_cons.mp hc with rfl | hc
      · exact hd
      · exact hacc c hc
    · refine ih (n / 10) _ ?_
      intro c hc
      rcases List.mem_cons.mp hc with rfl | hc
      · exact hd
      · exact hacc c hc

lemma pyStr_data_digits (n : Nat) : ∀ c ∈ (pyStr n).data, c.isDigit = true :=
  toDigitsCore_digits (n + 1) n [] (by simp)

lemma pyStr_ne_padded_one (n : Nat) : pyStr n ≠ " 1" := by
  intro h
  have hm : (' ' : Char) ∈ (pyStr n).data := by rw [h]; decide
  have := pyStr_data_digits n ' ' hm
  simp at this

lemma rowValid_elim {r : Row} (h : rowValid r = true) :
    r.unitNo ≠ "" ∧ pyStrip r.unitNo ≠ "" ∧
    (∀ s ∈ essentialFieldValues r, s ≠ "") ∧
    (∀ wa ∈ raw_wrong_answers r, wa ≠ "" ∧ wa ≠ pyStrip r.correctAnswer) ∧
    (raw_wrong_answers r).Nodup := by
  simp only [rowValid, pyTruthyStr, Bool.and_eq_true, decide_eq_true_eq,
    List.all_eq_true] at h
  obtain ⟨⟨⟨hu1, hu2⟩, hess⟩, hlen⟩ := h
  refine ⟨hu1, hu2, fun s hs => (hess s hs).1, ?_, ?_⟩
  all_goals {
    have hraws : (raw_wrong_answers r).length = 4 := by simp [raw_wrong_answers]
    set p : String → Bool :=
      fun wa => pyTruthyStr wa && decide (wa ≠ pyStrip r.correctAnswer) with hp
    have hlen' : 4 ≤ (((raw_wrong_answers r).filter p).dedup).length := by
      simpa [distinct_valid_wrong_answers_len, hp] using hlen
    have hsub1 := List.dedup_sublist ((raw_wrong_answers r).filter p)
    have hsub2 := List.filter_sublist (p := p) (raw_wrong_answers r)
    have hle1 := hsub1.length_le
    have hle2 := hsub2.length_le
    have hfl : ((raw_wrong_answers r).filter p).length = (raw_wrong_answers r).length := by
      omega
    have hfeq : (raw_wrong_answers r).filter p = raw_wrong_answers r :=
      hsub2.eq_of_length hfl
    have hdl : (((raw_wrong_answers r).filter p).dedup).length =
        ((raw_wrong_answers r).filter p).length := by omega
    have hnodup : ((raw_wrong_answers r).filter p).Nodup :=
      List.dedup_eq_self.mp (hsub1.eq_of_length hdl)
    rw [hfeq] at hnodup
    have hall := List.filter_eq_self.mp hfeq
    first
    | · intro wa hwa
        have := hall wa hwa
        simp only [hp, pyTruthyStr, Bool.and_eq_true, decide_eq_true_eq] at this
        exact this
    | · exact hnodup
  }

lemma pyStrip_ne_of_ne {s t : String} (h : pyStrip s ≠ pyStrip t) : s ≠ t :=
  fun he => h (congrArg pyStrip he)

lemma rowValid_raw_facts {r : Row} (h : rowValid r = true) :
    (r.wrongAnswer1 ≠ "" ∧ r.wrongAnswer2 ≠ "" ∧ r.wrongAnswer3 ≠ "" ∧
      r.wrongAnswer4 ≠ "") ∧
    (r.wrongAnswer1 ≠ r.correctAnswer ∧ r.wrongAnswer2 ≠ r.correctAnswer ∧
      r.wrongAnswer3 ≠ r.correctAnswer ∧ r.wrongAnswer4 ≠ r.correctAnswer) ∧
    (r.wrongAnswer1 ≠ r.wrongAnswer2 ∧ r.wrongAnswer1 ≠ r.wrongAnswer3 ∧
      r.wrongAnswer1 ≠ r.wrongAnswer4 ∧ r.wrongAnswer2 ≠ r.wrongAnswer3 ∧
      r.wrongAnswer2 ≠ r.wrongAnswer4 ∧ r.wrongAnswer3 ≠ r.wrongAnswer4) := by
  obtain ⟨-, -, hess, hwa, hnd⟩ := rowValid_elim h
  have e1 : r.wrongAnswer1 ≠ "" := hess _ (by simp [essentialFieldValues])
  have e2 : r.wrongAnswer2 ≠ "" := hess _ (by simp [essentialFieldValues])
  have e3 : r.wrongAnswer3 ≠ "" := hess _ (by simp [essentialFieldValues])
  have e4 : r.wrongAnswer4 ≠ "" := hess _ (by simp [essentialFieldValues])
  have hc1 := (hwa _ (by simp [raw_wrong_answers] : pyStrip r.wrongAnswer1 ∈ _)).2
  have hc2 := (hwa _ (by simp [raw_wrong_answers] : pyStrip r.wrongAnswer2 ∈ _)).2
  have hc3 := (hwa _ (by simp [raw_wrong_answers] : pyStrip r.wrongAnswer3 ∈ _)).2
  have hc4 := (hwa _ (by simp [raw_wrong_answers] : pyStrip r.wrongAnswer4 ∈ _)).2
  simp only [raw_wrong_answers, List.nodup_cons, List.mem_cons, List.not_mem_nil,
    List.nodup_nil, or_false, not_or, and_true] at hnd
  obtain ⟨⟨h12, h13, h14⟩, ⟨h23, h24⟩, h34, -⟩ := hnd
  have cs : ∀ {a : String}, pyStrip a ≠ pyStrip r.correctAnswer →
      a ≠ r.correctAnswer := fun hne => pyStrip_ne_of_ne hne
  exact ⟨⟨e1, e2, e3, e4⟩,
    ⟨cs hc1, cs hc2, cs hc3, cs hc4⟩,
    ⟨pyStrip_ne_of_ne h12, pyStrip_ne_of_ne h13, pyStrip_ne_of_ne h14,
     pyStrip_ne_of_ne h23, pyStrip_ne_of_ne h24, pyStrip_ne_of_ne h34⟩⟩

lemma loadLoop_char (src : Source) (es : List PyEncoding) :
    loadLoop src es =
      match es.find? (goodEncoding src) with
      | some e =>
        match src.decode e with
        | ReadResult.content c => ⟨true, c.rows.filter rowValid⟩
        | ReadResult.decodeFailure => ⟨false, []⟩
      | none => ⟨false, []⟩ := by
  induction es with
  | nil => rfl
  | cons e rest ih =>
    rcases hp : src.present with _ | _
    · have hnone : (e :: rest).find? (goodEncoding src) = none :=
        List.find?_eq_none.mpr (fun x _ => by simp [goodEncoding, hp])
      rw [hnone]
      simp [loadLoop, hp]
    · cases hd : src.decode e with
      | decodeFailure =>
        have hge : goodEncoding src e = false := by simp [goodEncoding, hp, hd]
        simp only [loadLoop, hp, hd, List.find?, hge]
        simpa using ih
      | content c =>
        cases hh : headersOk c.fieldnames with
        | false =>
          have hge : goodEncoding src e = false := by simp [goodEncoding, hp, hd, hh]
          simp only [loadLoop, hp, hd, hh, List.find?, hge]
          simpa [hh] using ih
        | true =>
          have hge : goodEncoding src e = true := by simp [goodEncoding, hp, hd, hh]
          simp [loadLoop, hp, hd, hh, List.find?, hge]

lemma loadLoop_data_valid (src : Source) :
    ∀ (es : List PyEncoding) (row : Row),
      row ∈ (loadLoop src es).all_questions_data → rowValid row = true
  | [], row, h => by simp [loadLoop] at h
  | e :: rest, row, h => by
    simp only [loadLoop] at h
    split at h
    · simp at h
    · split at h
      · exact loadLoop_data_valid src rest row h
      · split at h
        · exact (List.mem_filter.mp h).2
        · exact loadLoop_data_valid src rest row h

lemma load_data_valid (src : Source) :
    ∀ row ∈ (load src).all_questions_data, rowValid row = true :=
  fun row h => loadLoop_data_valid src encodings_to_try row h

lemma formatQuestion_options_perm (row : Row) (rs : List Nat) :
    List.Perm (formatQuestion row rs).options
      [row.correctAnswer, row.wrongAnswer1, row.wrongAnswer2, row.wrongAnswer3,
       row.wrongAnswer4] := by
  simpa [formatQuestion] using
    pyShuffle_perm rs [row.correctAnswer, row.wrongAnswer1, row.wrongAnswer2,
      row.wrongAnswer3, row.wrongAnswer4]

lemma getQ_ok_elim {st : LoadResult} {n pick : Nat} {rs : List Nat}
    {fq : FormattedQuestion}
    (h : get_single_question_for_unit st n pick rs = QResponse.ok fq) :
    ∃ row, row ∈ st.all_questions_data ∧ row.unitNo = pyStr n ∧
      fq = formatQuestion row rs := by
  simp only [get_single_question_for_unit] at h
  split at h
  · exact absurd h (by simp)
  · split at h
    · exact absurd h (by simp)
    · split at h
      · exact absurd h (by simp)
      · injection h with h
        rename_i hnil
        have hlt : pick % (st.all_questions_data.filter
              (fun q => q.unitNo == pyStr n)).length <
            (st.all_questions_data.filter (fun q => q.unitNo == pyStr n)).length :=
          Nat.mod_lt _ (List.length_pos.mpr hnil)
        have hmem : (st.all_questions_data.filter (fun q => q.unitNo == pyStr n)).get
            ⟨pick % (st.all_questions_data.filter
              (fun q => q.unitNo == pyStr n)).length, hlt⟩ ∈
            st.all_questions_data.filter (fun q => q.unitNo == pyStr n) :=
          List.get_mem _ _ _
        exact ⟨_, (List.mem_filter.mp hmem).1, eq_of_beq (List.mem_filter.mp hmem).2,
          h.symm⟩


/-- C1: for every successful question response, the selected record's raw
correct answer is returned as `correct_answer_debug` and appears exactly once
in the options list (so no wrong answer equals it). -/
theorem c1_exactly_one_correct_option (src : Source) (n pick : Nat) (rs : List Nat)
    (fq : FormattedQuestion)
    (h : get_single_question_for_unit (load src) n pick rs = QResponse.ok fq) :
    ∃ row, row ∈ (load src).all_questions_data ∧ row.unitNo = pyStr n ∧
      fq.correct_answer_debug = row.correctAnswer ∧
      fq.options.count row.correctAnswer = 1 := by
  obtain ⟨row, hmem, hunit, hfq⟩ := getQ_ok_elim h
  have hv := load_data_valid src row hmem
  obtain ⟨-, ⟨d1, d2, d3, d4⟩, -⟩ := rowValid_raw_facts hv
  subst hfq
  refine ⟨row, hmem, hunit, rfl, ?_⟩
  have hperm := formatQuestion_options_perm row rs
  rw [hperm.count_eq]
  simp [List.count_cons, d1, d2, d3, d4, formatQuestion]

/-- C1 witness: the concrete scenario source, unit 1, pick 0, draws `[0,0,0,0]`. -/
theorem c1_witness :
    ∃ row, row ∈ (load srcOneRow).all_questions_data ∧ row.unitNo = pyStr 1 ∧
      sampleFq.correct_answer_debug = row.correctAnswer ∧
      sampleFq.options.count row.correctAnswer = 1 :=
  c1_exactly_one_correct_option srcOneRow 1 0 [0, 0, 0, 0] sampleFq (by decide)

lemma getQ_single_row (row : Row) (n pick : Nat) (rs : List Nat)
    (hu : (row.unitNo == pyStr n) = true) :
    get_single_question_for_unit ⟨true, [row]⟩ n pick rs =
      QResponse.ok (formatQuestion row rs) := by
  have hf : List.filter (fun q => q.unitNo == pyStr n) [row] = [row] := by
    simp [List.filter, hu]
  simp [get_single_question_for_unit, hf, Nat.mod_one]

/-- C2: every successful question response's options list is a permutation of
the selected record's `[correct, wrong1, wrong2, wrong3, wrong4]`, hence has
length 5; in the one-row scenario, unit 1 yields a 200 response whose options
are a permutation of `["A","B","C","D","E"]`. -/
theorem c2_options_permutation :
    (∀ (src : Source) (n pick : Nat) (rs : List Nat) (fq : FormattedQuestion),
      get_single_question_for_unit (load src) n pick rs = QResponse.ok fq →
      ∃ row, row ∈ (load src).all_questions_data ∧ row.unitNo = pyStr n ∧
        List.Perm fq.options [row.correctAnswer, row.wrongAnswer1, row.wrongAnswer2,
          row.wrongAnswer3, row.wrongAnswer4] ∧
        fq.options.length = 5) ∧
    (∀ (pick : Nat) (rs : List Nat), ∃ fq,
      get_single_question_for_unit (load srcOneRow) 1 pick rs = QResponse.ok fq ∧
      List.Perm fq.options ["A", "B", "C", "D", "E"]) := by
  constructor
  · intro src n pick rs fq h
    obtain ⟨row, hmem, hunit, hfq⟩ := getQ_ok_elim h
    subst hfq
    have hperm := formatQuestion_options_perm row rs
    exact ⟨row, hmem, hunit, hperm, by simpa using hperm.length_eq⟩
  · intro pick rs
    have hload : load srcOneRow = ⟨true, [row1]⟩ := by decide
    refine ⟨formatQuestion row1 rs, ?_, ?_⟩
    · rw [hload]
      exact getQ_single_row row1 1 pick rs (by decide)
    · simpa [row1] using formatQuestion_options_perm row1 rs

/-- C2 witness: the scenario response at pick 0, draws `[0,0,0,0]`. -/
theorem c2_witness :
    ∃ row, row ∈ (load srcOneRow).all_questions_data ∧ row.unitNo = pyStr 1 ∧
      List.Perm sampleFq.options [row.correctAnswer, row.wrongAnswer1,
        row.wrongAnswer2, row.wrongAnswer3, row.wrongAnswer4] ∧
      sampleFq.options.length = 5 :=
  c2_options_permutation.1 srcOneRow 1 0 [0, 0, 0, 0] sampleFq (by decide)

/-- C3: every record the loader accepts has four wrong answers that are
non-empty, pairwise distinct, and distinct from the correct answer
(case-sensitive exact comparison on the raw fields); rows violated this only
if they were skipped, so no stored row violates it. -/
theorem c3_strict_distinct_invariant (src : Source) (r : Row)
    (h : r ∈ (load src).all_questions_data) :
    (r.wrongAnswer1 ≠ "" ∧ r.wrongAnswer2 ≠ "" ∧ r.wrongAnswer3 ≠ "" ∧
      r.wrongAnswer4 ≠ "") ∧
    (r.wrongAnswer1 ≠ r.correctAnswer ∧ r.wrongAnswer2 ≠ r.correctAnswer ∧
      r.wrongAnswer3 ≠ r.correctAnswer ∧ r.wrongAnswer4 ≠ r.correctAnswer) ∧
    (r.wrongAnswer1 ≠ r.wrongAnswer2 ∧ r.wrongAnswer1 ≠ r.wrongAnswer3 ∧
      r.wrongAnswer1 ≠ r.wrongAnswer4 ∧ r.wrongAnswer2 ≠ r.wrongAnswer3 ∧
      r.wrongAnswer2 ≠ r.wrongAnswer4 ∧ r.wrongAnswer3 ≠ r.wrongAnswer4) :=
  rowValid_raw_facts (load_data_valid src r h)

/-- C3 witness: the accepted scenario row. -/
theorem c3_witness :
    (row1.wrongAnswer1 ≠ "" ∧ row1.wrongAnswer2 ≠ "" ∧ row1.wrongAnswer3 ≠ "" ∧
      row1.wrongAnswer4 ≠ "") ∧
    (row1.wrongAnswer1 ≠ row1.correctAnswer ∧ row1.wrongAnswer2 ≠ row1.correctAnswer ∧
      row1.wrongAnswer3 ≠ row1.correctAnswer ∧ row1.wrongAnswer4 ≠ row1.correctAnswer) ∧
    (row1.wrongAnswer1 ≠ row1.wrongAnswer2 ∧ row1.wrongAnswer1 ≠ row1.wrongAnswer3 ∧
      row1.wrongAnswer1 ≠ row1.wrongAnswer4 ∧ row1.wrongAnswer2 ≠ row1.wrongAnswer3 ∧
      row1.wrongAnswer2 ≠ row1.wrongAnswer4 ∧ row1.wrongAnswer3 ≠ row1.wrongAnswer4) :=
  c3_strict_distinct_invariant srcOneRow row1 (by decide)

/-- C4: with data loaded and non-empty, a unit whose decimal string matches no
stored row's raw `Unit No` gets a 404; with the CSV never loaded or with no
valid rows, every question request gets a 503. -/
theorem c4_not_found_and_unavailable (st : LoadResult) (n pick : Nat) (rs : List Nat) :
    (st.CSV_LOADED_SUCCESSFULLY = true → st.all_questions_data ≠ [] →
      (∀ row ∈ st.all_questions_data, row.unitNo ≠ pyStr n) →
      get_single_question_for_unit st n pick rs = QResponse.httpError 404) ∧
    ((st.CSV_LOADED_SUCCESSFULLY = false ∨ st.all_questions_data = []) →
      get_single_question_for_unit st n pick rs = QResponse.httpError 503) := by
  constructor
  · intro h1 h2 hne
    have hf : st.all_questions_data.filter (fun q => q.unitNo == pyStr n) = [] :=
      List.filter_eq_nil_iff.mpr (fun a ha => by simpa using hne a ha)
    simp [get_single_question_for_unit, h1, h2, hf]
  · rintro (h | h) <;> simp [get_single_question_for_unit, h]

/-- C4 witness: unit 2 is absent from the one-row scenario source (404), and
the absent-file source gives 503. -/
theorem c4_witness :
    get_single_question_for_unit (load srcOneRow) 2 0 [] = QResponse.httpError 404 ∧
    get_single_question_for_unit (load srcAbsent) 1 0 [] = QResponse.httpError 503 :=
  ⟨(c4_not_found_and_unavailable (load srcOneRow) 2 0 []).1 (by decide) (by decide)
      (by decide),
   (c4_not_found_and_unavailable (load srcAbsent) 1 0 []).2 (Or.inl (by decide))⟩

/-- C5: the health endpoint returns 503 with status `error` exactly when the
load flag is down; a successful load with zero valid records gives 200
`ok_empty_data`; a successful load with records gives 200 `ok`. -/
theorem c5_health_check_status (st : LoadResult) :
    ((health_check st).2 = 503 ↔ st.CSV_LOADED_SUCCESSFULLY = false) ∧
    ((health_check st).2 = 503 ↔ (health_check st).1 = HealthStatus.error) ∧
    (st.CSV_LOADED_SUCCESSFULLY = true → st.all_questions_data = [] →
      health_check st = (HealthStatus.ok_empty_data, 200)) ∧
    (st.CSV_LOADED_SUCCESSFULLY = true → st.all_questions_data ≠ [] →
      health_check st = (HealthStatus.ok, 200)) := by
  obtain ⟨flag, data⟩ := st
  cases flag <;> rcases data with _ | ⟨r, rest⟩ <;> simp [health_check]

/-- C5 witness: the loaded scenario source is healthy, the absent source is not. -/
theorem c5_witness :
    health_check (load srcOneRow) = (HealthStatus.ok, 200) ∧
    ((health_check (load srcAbsent)).2 = 503 ↔
      (load srcAbsent).CSV_LOADED_SUCCESSFULLY = false) :=
  ⟨(c5_health_check_status (load srcOneRow)).2.2.2 (by decide) (by decide),
   (c5_health_check_status (load srcAbsent)).1⟩

/-- C6: the loader tries `utf-8-sig, utf-8, latin-1, cp1252` in that order;
its outcome is fully determined by the first encoding that decodes and yields
all seven required headers (decode failures and header mismatches just move
to the next encoding), and if no encoding is accepted the load status stays
down with no data. -/
theorem c6_encoding_priority :
    required_headers.length = 7 ∧
    encodings_to_try = [PyEncoding.utf8sig, PyEncoding.utf8, PyEncoding.latin1,
      PyEncoding.cp1252] ∧
    ∀ src : Source, load src =
      (match encodings_to_try.find? (goodEncoding src) with
      | some e =>
        match src.decode e with
        | ReadResult.content c => ⟨true, c.rows.filter rowValid⟩
        | ReadResult.decodeFailure => ⟨false, []⟩
      | none => ⟨false, []⟩) :=
  ⟨rfl, rfl, fun src => loadLoop_char src encodings_to_try⟩

/-- C7: when the source file is absent the loader fails with no data, the
health endpoint reports `error` with 503, and every question request gets 503. -/
theorem c7_absent_source (src : Source) (h : src.present = false) :
    load src = ⟨false, []⟩ ∧
    health_check (load src) = (HealthStatus.error, 503) ∧
    ∀ (n pick : Nat) (rs : List Nat),
      get_single_question_for_unit (load src) n pick rs = QResponse.httpError 503 := by
  have hl : load src = ⟨false, []⟩ := by
    simp [load, encodings_to_try, loadLoop, h]
  refine ⟨hl, ?_, ?_⟩
  · rw [hl]; decide
  · intro n pick rs
    rw [hl]
    simp [get_single_question_for_unit]

/-- C7 witness: the concrete absent source. -/
theorem c7_witness :
    load srcAbsent = ⟨false, []⟩ ∧
    health_check (load srcAbsent) = (HealthStatus.error, 503) ∧
    get_single_question_for_unit (load srcAbsent) 1 0 [] = QResponse.httpError 503 :=
  ⟨(c7_absent_source srcAbsent rfl).1, (c7_absent_source srcAbsent rfl).2.1,
   (c7_absent_source srcAbsent rfl).2.2 1 0 []⟩

/-- C8: the loader is deterministic: two sources with the same presence and
the same bytes (hence the same decode outcomes) load to identical flag and
record set. -/
theorem c8_loader_deterministic (s1 s2 : Source)
    (hp : s1.present = s2.present) (hd : s1.decode = s2.decode) :
    load s1 = load s2 ∧
    (load s1).all_questions_data = (load s2).all_questions_data := by
  obtain ⟨p1, d1⟩ := s1
  obtain ⟨p2, d2⟩ := s2
  cases hp
  cases hd
  exact ⟨rfl, rfl⟩

/-- C8 witness: two separately built copies of the scenario source. -/
theorem c8_witness :
    load srcOneRow = load srcOneRowAgain ∧
    (load srcOneRow).all_questions_data = (load srcOneRowAgain).all_questions_data :=
  c8_loader_deterministic srcOneRow srcOneRowAgain rfl rfl

/-- C9: request handling leaves the module state untouched: threading the
state through the handler returns exactly the incoming `LoadResult` (flag and
all stored rows), alongside the same response the stateless handler gives. -/
theorem c9_handler_preserves_state (st : LoadResult) (n pick : Nat) (rs : List Nat) :
    get_single_question_for_unit_st st n pick rs =
      (get_single_question_for_unit st n pick rs, st) := by
  unfold get_single_question_for_unit_st get_single_question_for_unit
  dsimp only
  repeat' split
  all_goals rfl

/-- C10: a row whose `Unit No` is `" 1"` passes validation (stripping) and is
stored, yet the endpoint compares the raw field against the decimal string of
the unit id, which never carries whitespace, so the row can never be served:
every request against a source holding only that row is a 404.  Likewise a
successful response returns the raw, unstripped answer fields even though
validation compared stripped values. -/
theorem c10_padded_fields_behaviour :
    rowValid rowPaddedUnit = true ∧
    (∀ n : Nat, pyStr n ≠ " 1") ∧
    load srcPaddedUnit = ⟨true, [rowPaddedUnit]⟩ ∧
    (∀ (n pick : Nat) (rs : List Nat),
      get_single_question_for_unit (load srcPaddedUnit) n pick rs =
        QResponse.httpError 404) ∧
    (∀ (pick : Nat) (rs : List Nat) (fq : FormattedQuestion),
      get_single_question_for_unit (load srcPaddedAnswers) 2 pick rs =
        QResponse.ok fq →
      fq.correct_answer_debug = " A " ∧
      List.Perm fq.options [" A ", " B ", " C ", " D ", " E "]) := by
  have hload : load srcPaddedUnit = ⟨true, [rowPaddedUnit]⟩ := by decide
  refine ⟨by decide, pyStr_ne_padded_one, hload, ?_, ?_⟩
  · intro n pick rs
    rw [hload]
    have hne : rowPaddedUnit.unitNo ≠ pyStr n := by
      simpa [rowPaddedUnit] using (pyStr_ne_padded_one n).symm
    have hf : List.filter (fun q => q.unitNo == pyStr n) [rowPaddedUnit] = [] := by
      simp [List.filter, beq_eq_false_iff_ne.mpr hne]
    simp [get_single_question_for_unit, hf]
  · intro pick rs fq h
    obtain ⟨row, hmem, -, hfq⟩ := getQ_ok_elim h
    have hload2 : load srcPaddedAnswers = ⟨true, [rowPaddedAnswers]⟩ := by decide
    rw [hload2] at hmem
    have hrow : row = rowPaddedAnswers := by simpa using hmem
    subst hrow hfq
    refine ⟨rfl, ?_⟩
    simpa [rowPaddedAnswers] using formatQuestion_options_perm rowPaddedAnswers rs

/-- C10 witness: the raw padded answers of the concrete response for unit 2. -/
theorem c10_witness :
    sampleFqPadded.correct_answer_debug = " A " ∧
    List.Perm sampleFqPadded.options [" A ", " B ", " C ", " D ", " E "] :=
  c10_padded_fields_behaviour.2.2.2.2 0 [0, 0, 0, 0] sampleFqPadded (by decide)
